import Mathlib

/-
Verification of the Application lifecycle helpers (pkg/utils/has/applications.go)
and the test-log collector (StoreTestLogs) of the e2e-tests repository, via a
shallow embedding.  The remote object store is represented by the responses it
gives to the individual calls the code makes; poll loops run on explicit fuel
derived from the timeout, following the poll-until-condition-or-timeout
semantics the specification gives for the WaitUntil helper.
-/

namespace E2E

/-- Errors returned by the remote object store, the filesystem and the polling
helper.  The constructor `notFound` stands for a Kubernetes not-found status
error, `timedOut` for the error the polling helper returns when the deadline
elapses, `apiError` for any other store or filesystem failure, and `errorf`
for an error composed from a message with fmt.Errorf. -/
inductive Err where
  | notFound
  | timedOut
  | apiError (code : Nat)
  | errorf (msg : String)
deriving DecidableEq, Repr

/-- Translation of k8sErrors.IsNotFound: recognizes exactly the not-found
store error. -/
def isNotFound : Err → Bool
  | Err.notFound => true
  | _ => false

/-- Rendering of an error when it is interpolated into a message built with
fmt.Errorf (the %+v and %s verbs). -/
def errString : Err → String
  | Err.notFound => "not found"
  | Err.timedOut => "timed out waiting for the condition"
  | Err.apiError c => "api error " ++ toString c
  | Err.errorf m => m

/-- Status of an appservice.Application; only the Devfile field is read by
this package. -/
structure ApplicationStatus where
  devfile : String
deriving DecidableEq, Repr

/-- An appservice.Application object: the metadata (name and namespace), the
spec (display name) and the observed status. -/
structure Application where
  name : String
  nspace : String
  displayName : String
  status : ApplicationStatus
deriving DecidableEq, Repr

/-- The remote object store behind h.KubeRest(), given through the responses
it returns to each call this package makes: `get i` is the response to the
i-th Get issued by a poll loop, `refreshGet` the response to the one
diagnostic Get of refreshApplicationForErrorDebug, and `create`, `delete`,
`deleteAllOf` and `list i` the responses to the corresponding calls. -/
structure KubeClient where
  create : Application → Option Err
  get : Nat → String → String → Except Err Application
  refreshGet : String → String → Except Err Application
  delete : String → String → Option Err
  deleteAllOf : String → Option Err
  list : Nat → String → Except Err (List Application)

/-- Go time.Duration values, counted in nanoseconds. -/
abbrev Duration := Int

/-- One minute, in nanoseconds, as in the Go time package. -/
def minute : Duration := 60 * 1000000000

/-- Modelled from the spec: the fixed polling interval of the WaitUntil
helper (the helper itself lies outside the sources at hand); the spec calls
for a fixed short interval, here one second. -/
def pollInterval : Duration := 1000000000

/-- Modelled from the spec: how many polling intervals fit into a timeout; a
non-positive timeout yields none at all. -/
def intervalsIn (timeout : Duration) : Nat := timeout.toNat / pollInterval.toNat

/-- Modelled from the spec: the loop of the WaitUntil helper.  The condition
is evaluated repeatedly until it returns true, returns a non-nil error, or
the deadline elapses; it may thread state the caller closes over.  `i` counts
the evaluations made so far and `fuel` the polling intervals left before the
deadline; one evaluation happens immediately, so even a non-positive timeout
evaluates the condition once. -/
def waitUntilFrom {σ : Type} (cond : Nat → σ → σ × Bool × Option Err)
    (s : σ) (i fuel : Nat) : σ × Option Err :=
  match cond i s with
  | (s2, _, some e) => (s2, some e)
  | (s2, true, none) => (s2, none)
  | (s2, false, none) =>
    match fuel with
    | 0 => (s2, some Err.timedOut)
    | f + 1 => waitUntilFrom cond s2 (i + 1) f

/-- Modelled from the spec: utils.WaitUntil runs the poll loop with the fuel
the timeout affords. -/
def waitUntil {σ : Type} (cond : Nat → σ → σ × Bool × Option Err)
    (s : σ) (timeout : Duration) : σ × Option Err :=
  waitUntilFrom cond s 0 (intervalsIn timeout)

/-- Translation of GetApplication (applications.go lines 39-48): a Get
against the store returning the object, or the lookup error unchanged.  The
index i says which Get call of a poll loop this is. -/
def getApplication (c : KubeClient) (i : Nat) (name nspace : String) :
    Except Err Application :=
  c.get i name nspace

/-- Translation of ApplicationDevfilePresent (lines 51-60): the readiness
condition closed over the application object.  A failed lookup yields
(false, nil); a successful one copies the fetched status into the closed-over
object and reports whether Status.Devfile is non-empty. -/
def applicationDevfilePresent (c : KubeClient) :
    Nat → Application → Application × Bool × Option Err :=
  fun i app =>
    match getApplication c i app.name app.nspace with
    | Except.error _ => (app, false, none)
    | Except.ok fetched =>
      let app2 := { app with status := fetched.status }
      (app2, app2.status.devfile != "", none)

/-- The application object CreateApplicationWithTimeout builds before
submitting it (lines 77-85): metadata name and namespace, DisplayName set to
the name, empty status. -/
def initialApplication (name nspace : String) : Application :=
  { name := name, nspace := nspace, displayName := name,
    status := { devfile := "" } }

/-- Translation of refreshApplicationForErrorDebug (lines 141-149): one more
Get; on failure the previous object is kept. -/
def refreshApplicationForErrorDebug (c : KubeClient) (app : Application) :
    Application :=
  match c.refreshGet app.name app.nspace with
  | Except.error _ => app
  | Except.ok retApp => retApp

/-- Modelled from the spec: utils.ToPrettyJSONString (outside the sources at
hand) serializes the last-known object state as JSON for debugging. -/
def toPrettyJSONString (app : Application) : String :=
  "\x7b\"name\": \"" ++ app.name ++ "\", \"namespace\": \"" ++ app.nspace ++
    "\", \"displayName\": \"" ++ app.displayName ++
    "\", \"status\": \x7b\"devfile\": \"" ++ app.status.devfile ++
    "\"\x7d\x7d"

/-- The message of the composed timeout error of CreateApplicationWithTimeout
(line 93), spelling kept from the source. -/
def createTimeoutMsg (name nspace : String) (e : Err) (app : Application) :
    String :=
  "timed out when waiting for devfile content creation for application " ++
    name ++ " in " ++ nspace ++ " namespace: " ++ errString e ++
    ". applicattion: " ++ toPrettyJSONString app

/-- Translation of CreateApplicationWithTimeout (lines 76-97): build the
object, submit it (returning the store error unchanged on failure), then poll
for the devfile; on poll failure, refresh the object for debugging and return
the composed error. -/
def createApplicationWithTimeout (c : KubeClient) (name nspace : String)
    (timeout : Duration) : Except Err Application :=
  let application := initialApplication name nspace
  match c.create application with
  | some e => Except.error e
  | none =>
    match waitUntil (applicationDevfilePresent c) application timeout with
    | (app2, some e) =>
      let refreshed := refreshApplicationForErrorDebug c app2
      Except.error (Err.errorf (createTimeoutMsg name nspace e refreshed))
    | (app2, none) => Except.ok app2

/-- Translation of CreateApplication (lines 71-73): delegates with a
10-minute timeout. -/
def createApplication (c : KubeClient) (name nspace : String) :
    Except Err Application :=
  createApplicationWithTimeout c name nspace (10 * minute)

/-- Translation of ApplicationDeleted (lines 118-123): done exactly when the
Get fails with a not-found error; never returns an error itself. -/
def applicationDeleted (c : KubeClient) (name nspace : String) :
    Nat → Unit → Unit × Bool × Option Err :=
  fun i _ =>
    match getApplication c i name nspace with
    | Except.error e => ((), isNotFound e, none)
    | Except.ok _ => ((), false, none)

/-- Translation of DeleteApplication (lines 102-115): submit the delete,
return a wrapped error unless the failure is a tolerated not-found, then
confirm absence by polling with a hard-coded one-minute timeout. -/
def deleteApplication (c : KubeClient) (name nspace : String)
    (reportErrorOnNotFound : Bool) : Option Err :=
  match c.delete name nspace with
  | some e =>
    if !(isNotFound e) || (isNotFound e && reportErrorOnNotFound) then
      some (Err.errorf ("error deleting an application: " ++ errString e))
    else
      (waitUntil (applicationDeleted c name nspace) () (1 * minute)).2
  | none => (waitUntil (applicationDeleted c name nspace) () (1 * minute)).2

/-- The polling condition of DeleteAllApplicationsInASpecificNamespace
(lines 132-137): a failing List counts as not yet; a successful one is done
exactly when it holds zero items. -/
def allApplicationsGone (c : KubeClient) (nspace : String) :
    Nat → Unit → Unit × Bool × Option Err :=
  fun i _ =>
    match c.list i nspace with
    | Except.error _ => ((), false, none)
    | Except.ok items => ((), items.length == 0, none)

/-- Translation of DeleteAllApplicationsInASpecificNamespace (lines 126-138):
one bulk delete scoped to the namespace, wrapped error on submission failure,
then poll until a List of the namespace comes back empty. -/
def deleteAllApplicationsInASpecificNamespace (c : KubeClient)
    (nspace : String) (timeout : Duration) : Option Err :=
  match c.deleteAllOf nspace with
  | some e =>
    some (Err.errorf ("error deleting applications from the namespace " ++
      nspace ++ ": " ++ errString e))
  | none => (waitUntil (allApplicationsGone c nspace) () timeout).2

/-- The environment StoreTestLogs runs in: the working directory, the
optional ARTIFACT_DIR variable, and the responses of the filesystem MkdirAll
and of the two log-export collaborators. -/
structure LogsEnv where
  getwd : String
  artifactDirVar : Option String
  mkdirAll : String → Option Err
  storePodLogs : String → String → String → Option Err
  storePipelineRuns : String → Option Err

/-- Modelled from the spec: utils.GetEnv (outside the sources at hand)
resolves an environment override, else the given default. -/
def getEnvOr (v : Option String) (fallback : String) : String := v.getD fallback

/-- The per-namespace log directory StoreTestLogs computes (part_000 lines
15-17). -/
def testLogsDir (e : LogsEnv) (testNamespace : String) : String :=
  getEnvOr e.artifactDirVar (e.getwd ++ "/tmp") ++ "/" ++ testNamespace

/-- The observable outcome of StoreTestLogs: the returned value, whether each
export call was attempted, and the lines written to the Ginkgo diagnostic
writer. -/
structure LogsOutcome where
  result : Option Err
  podLogsAttempted : Bool
  pipelineRunsAttempted : Bool
  diagnostics : List String
deriving DecidableEq, Repr

/-- Translation of StoreTestLogs (part_000 lines 14-32): create the
per-namespace directory, failing fatally if that fails; then run both export
calls, writing each failure only to the diagnostic writer, and return nil. -/
def storeTestLogs (e : LogsEnv) (testNamespace jobName : String) :
    LogsOutcome :=
  let dir := testLogsDir e testNamespace
  match e.mkdirAll dir with
  | some err =>
    { result := some err, podLogsAttempted := false,
      pipelineRunsAttempted := false, diagnostics := [] }
  | none =>
    let d1 :=
      match e.storePodLogs testNamespace jobName dir with
      | some err => ["Failed to store pod logs: " ++ errString err]
      | none => []
    let d2 :=
      match e.storePipelineRuns testNamespace with
      | some err => ["Failed to store pipelineRun logs: " ++ errString err]
      | none => []
    { result := none, podLogsAttempted := true,
      pipelineRunsAttempted := true, diagnostics := d1 ++ d2 }

/-- The boolean the ApplicationDeleted condition computes at the i-th poll:
whether the i-th Get failed with a not-found error. -/
def deletedAt (c : KubeClient) (name nspace : String) (i : Nat) : Bool :=
  match c.get i name nspace with
  | Except.error e => isNotFound e
  | Except.ok _ => false

/-- The boolean the DeleteAllApplicationsInASpecificNamespace condition
computes at the i-th poll: whether the i-th List succeeded with zero items. -/
def emptyAt (c : KubeClient) (nspace : String) (i : Nat) : Bool :=
  match c.list i nspace with
  | Except.error _ => false
  | Except.ok items => items.length == 0

/-- Sample application name used by the concrete witnesses. -/
def nmA : String := "a"

/-- Sample namespace used by the concrete witnesses. -/
def nsB : String := "b"

/-- Sample test namespace used by the concrete witnesses. -/
def nsT : String := "testns"

/-- Sample job name used by the concrete witnesses. -/
def jobJ : String := "job"

/-- A store in which every object is already absent: creations and deletions
are accepted, every lookup fails with not-found, listings are empty. -/
def idleClient : KubeClient :=
  { create := fun _ => none,
    get := fun _ _ _ => Except.error Err.notFound,
    refreshGet := fun _ _ => Except.error Err.notFound,
    delete := fun _ _ => none,
    deleteAllOf := fun _ => none,
    list := fun _ _ => Except.ok [] }

/-- A store whose Create call is rejected outright. -/
def createFailClient : KubeClient :=
  { idleClient with create := fun _ => some (Err.apiError 3) }

/-- A store whose Delete call fails with not-found, every lookup also failing
with not-found. -/
def deleteNotFoundClient : KubeClient :=
  { idleClient with delete := fun _ _ => some Err.notFound }

/-- A collector environment in which the directory is created fine and both
export calls fail. -/
def logsEnvOk : LogsEnv :=
  { getwd := "/wd", artifactDirVar := none,
    mkdirAll := fun _ => none,
    storePodLogs := fun _ _ _ => some (Err.apiError 1),
    storePipelineRuns := fun _ => some (Err.apiError 2) }

/-- C1: when creating the per-namespace log directory succeeds, StoreTestLogs
returns nil even if both exports fail, each failure only going to the
diagnostic writer, and both exports are attempted; when directory creation
fails, the error is returned and neither export call is attempted. -/
theorem storeTestLogs_error_handling (e : LogsEnv) (ns job : String) :
    (e.mkdirAll (testLogsDir e ns) = none →
      (storeTestLogs e ns job).result = none ∧
      (storeTestLogs e ns job).podLogsAttempted = true ∧
      (storeTestLogs e ns job).pipelineRunsAttempted = true ∧
      (∀ ep, e.storePodLogs ns job (testLogsDir e ns) = some ep →
        ("Failed to store pod logs: " ++ errString ep) ∈
          (storeTestLogs e ns job).diagnostics) ∧
      (∀ er, e.storePipelineRuns ns = some er →
        ("Failed to store pipelineRun logs: " ++ errString er) ∈
          (storeTestLogs e ns job).diagnostics)) ∧
    (∀ em, e.mkdirAll (testLogsDir e ns) = some em →
      (storeTestLogs e ns job).result = some em ∧
      (storeTestLogs e ns job).podLogsAttempted = false ∧
      (storeTestLogs e ns job).pipelineRunsAttempted = false) := by
  unfold storeTestLogs
  cases hmk : e.mkdirAll (testLogsDir e ns) with
  | some em => simp [hmk]
  | none =>
    simp only [hmk]
    refine ⟨fun _ => ⟨by trivial, by trivial, by trivial,
      fun ep hp => ?_, fun er hr => ?_⟩, fun em hm => by simp at hm⟩
    · simp [hp]
    · cases hq : e.storePodLogs ns job (testLogsDir e ns) <;> simp [hq, hr]

/-- Witness for the C1 theorem at a concrete environment in which directory
creation succeeds and both exports fail. -/
theorem storeTestLogs_error_handling_witness :
    (storeTestLogs logsEnvOk nsT jobJ).result = none ∧
    (storeTestLogs logsEnvOk nsT jobJ).podLogsAttempted = true ∧
    (storeTestLogs logsEnvOk nsT jobJ).pipelineRunsAttempted = true := by
  have h := (storeTestLogs_error_handling logsEnvOk nsT jobJ).1 rfl
  exact ⟨h.1, h.2.1, h.2.2.1⟩

/-- C2: when the Create submission fails, CreateApplicationWithTimeout
returns the store error unchanged, and the result is the same for any store
that answers Create the same way regardless of how it would answer the poll
and refresh lookups, so no poll loop is entered. -/
theorem createApplicationWithTimeout_submitFail (c : KubeClient)
    (name nspace : String) (t : Duration) (e : Err)
    (h : c.create (initialApplication name nspace) = some e) :
    createApplicationWithTimeout c name nspace t = Except.error e ∧
    ∀ c2 : KubeClient, c2.create (initialApplication name nspace) = some e →
      createApplicationWithTimeout c2 name nspace t = Except.error e := by
  constructor
  · unfold createApplicationWithTimeout
    simp [h]
  · intro c2 h2
    unfold createApplicationWithTimeout
    simp [h2]

/-- Witness for the C2 theorem at a store that rejects the Create call. -/
theorem createApplicationWithTimeout_submitFail_witness :
    createFailClient.create (initialApplication nmA nsB) =
      some (Err.apiError 3) ∧
    createApplicationWithTimeout createFailClient nmA nsB minute =
      Except.error (Err.apiError 3) :=
  ⟨rfl, (createApplicationWithTimeout_submitFail createFailClient nmA nsB
    minute (Err.apiError 3) rfl).1⟩

/-- C4: each evaluation of the ApplicationDevfilePresent condition never
returns an error; when the lookup fails it returns (false, nil) leaving the
object as it was, and when the lookup succeeds the boolean it returns is true
exactly when the fetched Status.Devfile is non-empty. -/
theorem applicationDevfilePresent_eval (c : KubeClient) (i : Nat)
    (app : Application) :
    (applicationDevfilePresent c i app).2.2 = none ∧
    (∀ e, c.get i app.name app.nspace = Except.error e →
      applicationDevfilePresent c i app = (app, false, none)) ∧
    (∀ a, c.get i app.name app.nspace = Except.ok a →
      ((applicationDevfilePresent c i app).2.1 = true ↔
        a.status.devfile ≠ "")) := by
  unfold applicationDevfilePresent getApplication
  cases hg : c.get i app.name app.nspace with
  | error e => simp [hg]
  | ok a => simp [hg]

/-- Witness for the C4 theorem at a store whose lookup fails with not-found:
the condition reports not ready and no error. -/
theorem applicationDevfilePresent_eval_witness :
    applicationDevfilePresent idleClient 0 (initialApplication nmA nsB) =
      (initialApplication nmA nsB, false, none) :=
  (applicationDevfilePresent_eval idleClient 0
    (initialApplication nmA nsB)).2.1 Err.notFound rfl

/-- C9: CreateApplication is CreateApplicationWithTimeout at the hard-coded
default timeout of 10 minutes, that is 600000000000 nanoseconds. -/
theorem createApplication_default_timeout (c : KubeClient)
    (name nspace : String) :
    createApplication c name nspace =
      createApplicationWithTimeout c name nspace (10 * minute) ∧
    (10 * minute : Duration) = 600000000000 :=
  ⟨rfl, by norm_num [minute]⟩

/-- C10: whenever the delete submission succeeds, DeleteApplication confirms
absence by the poll with the hard-coded timeout of 1 minute, 60000000000
nanoseconds, independent of every caller input. -/
theorem deleteApplication_fixed_confirmation_timeout (c : KubeClient)
    (name nspace : String) (r : Bool) (h : c.delete name nspace = none) :
    deleteApplication c name nspace r =
      (waitUntil (applicationDeleted c name nspace) () (1 * minute)).2 ∧
    (1 * minute : Duration) = 60000000000 := by
  refine ⟨?_, by norm_num [minute]⟩
  unfold deleteApplication
  simp [h]

/-- Witness for the C10 theorem at a store that accepts the delete. -/
theorem deleteApplication_fixed_confirmation_timeout_witness :
    idleClient.delete nmA nsB = none ∧
    deleteApplication idleClient nmA nsB true =
      (waitUntil (applicationDeleted idleClient nmA nsB) () (1 * minute)).2 :=
  ⟨rfl, (deleteApplication_fixed_confirmation_timeout idleClient nmA nsB
    true rfl).1⟩

/-- A poll loop over a condition that never returns an error ends in either
success or the timeout error. -/
theorem waitUntilFrom_noErr {σ : Type} (cond : Nat → σ → σ × Bool × Option Err)
    (herr : ∀ j s, (cond j s).2.2 = none) (s : σ) (i f : Nat) :
    (waitUntilFrom cond s i f).2 = none ∨
      (waitUntilFrom cond s i f).2 = some Err.timedOut := by
  induction f generalizing s i with
  | zero =>
    rcases hc : cond i s with ⟨s2, b, e⟩
    have he : e = none := by have h := herr i s; rw [hc] at h; exact h
    subst he
    unfold waitUntilFrom
    rw [hc]
    cases b <;> simp
  | succ f ih =>
    rcases hc : cond i s with ⟨s2, b, e⟩
    have he : e = none := by have h := herr i s; rw [hc] at h; exact h
    subst he
    unfold waitUntilFrom
    rw [hc]
    cases b with
    | true => simp
    | false => simpa using ih s2 (i + 1)

/-- A poll loop over a stateless, error-free condition given by a flag on the
iteration number succeeds exactly when the flag holds at some iteration the
fuel reaches. -/
theorem waitUntilFrom_flag_none_iff (p : Nat → Bool) (i f : Nat) :
    (waitUntilFrom (fun j _ => ((), p j, none)) () i f).2 = none ↔
      ∃ j, i ≤ j ∧ j ≤ i + f ∧ p j = true := by
  induction f generalizing i with
  | zero =>
    unfold waitUntilFrom
    cases hp : p i with
    | true =>
      simp [hp]
      exact ⟨i, le_refl i, by omega, hp⟩
    | false =>
      simp [hp]
      intro j h1 h2
      have hj : j = i := by omega
      subst hj
      simp [hp]
  | succ f ih =>
    unfold waitUntilFrom
    cases hp : p i with
    | true =>
      simp [hp]
      exact ⟨i, le_refl i, by omega, hp⟩
    | false =>
      simp only [hp]
      rw [ih (i + 1)]
      constructor
      · rintro ⟨j, h1, h2, h3⟩
        exact ⟨j, by omega, by omega, h3⟩
      · rintro ⟨j, h1, h2, h3⟩
        refine ⟨j, ?_, by omega, h3⟩
        rcases Nat.eq_or_lt_of_le h1 with h | h
        · subst h
          rw [hp] at h3
          cases h3
        · omega

/-- The ApplicationDeleted condition, written as an error-free flag on the
iteration number. -/
theorem applicationDeleted_eq_flag (c : KubeClient) (name nspace : String) :
    applicationDeleted c name nspace =
      fun i _ => ((), deletedAt c name nspace i, none) := by
  funext i u
  unfold applicationDeleted deletedAt getApplication
  cases c.get i name nspace <;> rfl

/-- The condition of DeleteAllApplicationsInASpecificNamespace, written as an
error-free flag on the iteration number. -/
theorem allApplicationsGone_eq_flag (c : KubeClient) (nspace : String) :
    allApplicationsGone c nspace = fun i _ => ((), emptyAt c nspace i, none) := by
  funext i u
  unfold allApplicationsGone emptyAt
  cases c.list i nspace <;> rfl

/-- The ApplicationDevfilePresent condition never returns an error. -/
theorem applicationDevfilePresent_noErr (c : KubeClient) (j : Nat)
    (s : Application) : (applicationDevfilePresent c j s).2.2 = none := by
  unfold applicationDevfilePresent getApplication
  cases c.get j s.name s.nspace <;> rfl

/-- Unfolding of waitUntil to the fueled loop. -/
theorem waitUntil_eq {σ : Type} (cond : Nat → σ → σ × Bool × Option Err)
    (s : σ) (t : Duration) :
    waitUntil cond s t = waitUntilFrom cond s 0 (intervalsIn t) := rfl

/-- A non-positive timeout affords no polling interval. -/
theorem intervalsIn_nonpos (t : Duration) (ht : t ≤ 0) : intervalsIn t = 0 := by
  unfold intervalsIn
  rw [Int.toNat_of_nonpos ht]
  simp

/-- The flag of the list-gone condition holds exactly when the List call of
that iteration returned the empty list. -/
theorem emptyAt_true_iff (c : KubeClient) (nspace : String) (i : Nat) :
    emptyAt c nspace i = true ↔ c.list i nspace = Except.ok [] := by
  unfold emptyAt
  cases hl : c.list i nspace with
  | error e => simp
  | ok items => simp [List.length_eq_zero]

/-- A successful absence poll requires a not-found Get at some iteration. -/
theorem absencePoll_none_exists (c : KubeClient) (name nspace : String)
    (h : (waitUntil (applicationDeleted c name nspace) () (1 * minute)).2 =
      none) :
    ∃ i e, c.get i name nspace = Except.error e ∧ isNotFound e = true := by
  rw [waitUntil_eq, applicationDeleted_eq_flag,
    waitUntilFrom_flag_none_iff] at h
  rcases h with ⟨j, _, _, hflag⟩
  unfold deletedAt at hflag
  cases hg : c.get j name nspace with
  | error e =>
    rw [hg] at hflag
    exact ⟨j, e, hg, hflag⟩
  | ok a =>
    rw [hg] at hflag
    simp at hflag

/-- C3: when the submission succeeds but the readiness poll expires,
CreateApplicationWithTimeout returns no application but a composed error
built from the once-more-refreshed object, whose message ends with that
object serialized as JSON, and the refresh keeps the previous object when
its fetch fails. -/
theorem createApplicationWithTimeout_pollExpired (c : KubeClient)
    (name nspace : String) (t : Duration)
    (h1 : c.create (initialApplication name nspace) = none)
    (h2 : (waitUntil (applicationDevfilePresent c)
      (initialApplication name nspace) t).2.isSome = true) :
    createApplicationWithTimeout c name nspace t =
      Except.error (Err.errorf (createTimeoutMsg name nspace Err.timedOut
        (refreshApplicationForErrorDebug c
          (waitUntil (applicationDevfilePresent c)
            (initialApplication name nspace) t).1))) ∧
    (∃ pre, createTimeoutMsg name nspace Err.timedOut
        (refreshApplicationForErrorDebug c
          (waitUntil (applicationDevfilePresent c)
            (initialApplication name nspace) t).1) =
      pre ++ toPrettyJSONString (refreshApplicationForErrorDebug c
        (waitUntil (applicationDevfilePresent c)
          (initialApplication name nspace) t).1)) ∧
    (∀ app2 e2, c.refreshGet app2.name app2.nspace = Except.error e2 →
      refreshApplicationForErrorDebug c app2 = app2) := by
  have hw := waitUntilFrom_noErr (applicationDevfilePresent c)
    (fun j s => applicationDevfilePresent_noErr c j s)
    (initialApplication name nspace) 0 (intervalsIn t)
  rw [← waitUntil_eq] at hw
  have hw2 : (waitUntil (applicationDevfilePresent c)
      (initialApplication name nspace) t).2 = some Err.timedOut := by
    rcases hw with h | h
    · rw [h] at h2
      simp at h2
    · exact h
  refine ⟨?_, ?_, ?_⟩
  · unfold createApplicationWithTimeout
    simp only [h1]
    rcases hwp : waitUntil (applicationDevfilePresent c)
      (initialApplication name nspace) t with ⟨app1, r⟩
    rw [hwp] at hw2
    simp only at hw2
    subst hw2
    rfl
  · exact ⟨"timed out when waiting for devfile content creation for " ++
      "application " ++ name ++ " in " ++ nspace ++ " namespace: " ++
      errString Err.timedOut ++ ". applicattion: ", by
        unfold createTimeoutMsg
        simp [String.append_assoc]⟩
  · intro app2 e2 hg
    unfold refreshApplicationForErrorDebug
    rw [hg]

/-- Witness for the C3 theorem: a store that accepts the Create but never
reports a devfile, polled with a one-nanosecond timeout. -/
theorem createApplicationWithTimeout_pollExpired_witness :
    idleClient.create (initialApplication nmA nsB) = none ∧
    createApplicationWithTimeout idleClient nmA nsB 1 =
      Except.error (Err.errorf (createTimeoutMsg nmA nsB Err.timedOut
        (refreshApplicationForErrorDebug idleClient
          (waitUntil (applicationDevfilePresent idleClient)
            (initialApplication nmA nsB) 1).1))) :=
  ⟨rfl, (createApplicationWithTimeout_pollExpired idleClient nmA nsB 1
    rfl rfl).1⟩

/-- C8: with a non-positive timeout, a successful submission and a readiness
condition that is not already satisfied, CreateApplicationWithTimeout still
terminates and returns the composed timeout error. -/
theorem createApplicationWithTimeout_nonposTimeout (c : KubeClient)
    (name nspace : String) (t : Duration) (ht : t ≤ 0)
    (h1 : c.create (initialApplication name nspace) = none)
    (h2 : (applicationDevfilePresent c 0
      (initialApplication name nspace)).2.1 = false) :
    createApplicationWithTimeout c name nspace t =
      Except.error (Err.errorf (createTimeoutMsg name nspace Err.timedOut
        (refreshApplicationForErrorDebug c
          (applicationDevfilePresent c 0
            (initialApplication name nspace)).1))) := by
  have h0 : intervalsIn t = 0 := intervalsIn_nonpos t ht
  unfold createApplicationWithTimeout
  simp only [h1]
  rw [waitUntil_eq, h0]
  rcases hc : applicationDevfilePresent c 0 (initialApplication name nspace)
    with ⟨s2, b, e⟩
  have he : e = none := by
    have h := applicationDevfilePresent_noErr c 0
      (initialApplication name nspace)
    rw [hc] at h
    exact h
  subst he
  have hb : b = false := by
    rw [hc] at h2
    exact h2
  subst hb
  unfold waitUntilFrom
  rw [hc]

/-- Witness for the C8 theorem at a zero timeout. -/
theorem createApplicationWithTimeout_nonposTimeout_witness :
    (0 : Duration) ≤ 0 ∧
    createApplicationWithTimeout idleClient nmA nsB 0 =
      Except.error (Err.errorf (createTimeoutMsg nmA nsB Err.timedOut
        (refreshApplicationForErrorDebug idleClient
          (applicationDevfilePresent idleClient 0
            (initialApplication nmA nsB)).1))) :=
  ⟨le_refl 0, createApplicationWithTimeout_nonposTimeout idleClient nmA nsB 0
    (le_refl 0) rfl rfl⟩

/-- C5: when the delete submission fails with a not-found error,
DeleteApplication with reportErrorOnNotFound true returns a non-nil error
immediately; with false it proceeds to the absence poll, and since the
object is absent the first poll already confirms and the call returns nil. -/
theorem deleteApplication_notFound_submission (c : KubeClient)
    (name nspace : String) (e : Err)
    (h : c.delete name nspace = some e) (hnf : isNotFound e = true) :
    (deleteApplication c name nspace true).isSome = true ∧
    deleteApplication c name nspace false =
      (waitUntil (applicationDeleted c name nspace) () (1 * minute)).2 ∧
    (∀ e0, c.get 0 name nspace = Except.error e0 → isNotFound e0 = true →
      deleteApplication c name nspace false = none) := by
  refine ⟨?_, ?_, ?_⟩
  · unfold deleteApplication
    simp [h, hnf]
  · unfold deleteApplication
    simp [h, hnf]
  · intro e0 hg hnf0
    unfold deleteApplication
    simp only [h, hnf]
    rw [waitUntil_eq, applicationDeleted_eq_flag]
    simp only [Bool.not_true, Bool.false_or, Bool.true_and]
    rw [if_neg (by decide : ¬ ((false : Bool) = true))]
    rw [waitUntilFrom_flag_none_iff]
    refine ⟨0, le_refl 0, by omega, ?_⟩
    unfold deletedAt
    rw [hg]
    exact hnf0

/-- Witness for the C5 theorem at a store whose delete reports not-found. -/
theorem deleteApplication_notFound_submission_witness :
    (deleteApplication deleteNotFoundClient nmA nsB true).isSome = true ∧
    deleteApplication deleteNotFoundClient nmA nsB false = none := by
  have h := deleteApplication_notFound_submission deleteNotFoundClient
    nmA nsB Err.notFound rfl rfl
  exact ⟨h.1, h.2.2 Err.notFound rfl rfl⟩

/-- C6: whenever the delete submission raises no reported error,
DeleteApplication runs the absence poll; it returns nil only if some poll
iteration saw the Get fail with a not-found error, and a Get failure that is
not not-found leaves the condition unsatisfied. -/
theorem deleteApplication_absence_poll (c : KubeClient)
    (name nspace : String) (r : Bool) :
    (c.delete name nspace = none →
      deleteApplication c name nspace r =
        (waitUntil (applicationDeleted c name nspace) () (1 * minute)).2) ∧
    (deleteApplication c name nspace r = none →
      ∃ i e, c.get i name nspace = Except.error e ∧ isNotFound e = true) ∧
    (∀ i e, c.get i name nspace = Except.error e → isNotFound e = false →
      (applicationDeleted c name nspace i ()).2.1 = false) := by
  refine ⟨?_, ?_, ?_⟩
  · intro hd
    unfold deleteApplication
    rw [hd]
  · intro hres
    unfold deleteApplication at hres
    split at hres
    · split at hres
      · simp at hres
      · exact absencePoll_none_exists c name nspace hres
    · exact absencePoll_none_exists c name nspace hres
  · intro i e hg hnnf
    unfold applicationDeleted getApplication
    rw [hg]
    simp [hnnf]

/-- Witness for the C6 theorem: a store in which the object is absent, so the
nil return certifies an observed not-found Get. -/
theorem deleteApplication_absence_poll_witness :
    ∃ i e, idleClient.get i nmA nsB = Except.error e ∧ isNotFound e = true :=
  (deleteApplication_absence_poll idleClient nmA nsB false).2.1 rfl

/-- C7: DeleteAllApplicationsInASpecificNamespace wraps and returns a bulk
delete failure immediately; its poll condition treats List failures as not
yet done; and when the bulk delete succeeds the call returns nil exactly when
some poll iteration within the timeout saw an empty List. -/
theorem deleteAllApplications_spec (c : KubeClient) (nspace : String)
    (t : Duration) :
    (∀ e, c.deleteAllOf nspace = some e →
      deleteAllApplicationsInASpecificNamespace c nspace t =
        some (Err.errorf ("error deleting applications from the namespace " ++
          nspace ++ ": " ++ errString e))) ∧
    (∀ i e, c.list i nspace = Except.error e →
      allApplicationsGone c nspace i () = ((), false, none)) ∧
    (c.deleteAllOf nspace = none →
      (deleteAllApplicationsInASpecificNamespace c nspace t = none ↔
        ∃ i, i ≤ intervalsIn t ∧ c.list i nspace = Except.ok [])) := by
  refine ⟨?_, ?_, ?_⟩
  · intro e he
    unfold deleteAllApplicationsInASpecificNamespace
    rw [he]
  · intro i e he
    unfold allApplicationsGone
    rw [he]
  · intro hd
    unfold deleteAllApplicationsInASpecificNamespace
    rw [hd]
    rw [waitUntil_eq, allApplicationsGone_eq_flag, waitUntilFrom_flag_none_iff]
    constructor
    · rintro ⟨j, _, h2, h3⟩
      exact ⟨j, by omega, (emptyAt_true_iff c nspace j).1 h3⟩
    · rintro ⟨j, h1, h2⟩
      exact ⟨j, by omega, by omega, (emptyAt_true_iff c nspace j).2 h2⟩

/-- Witness for the C7 theorem at a store whose namespace listing is already
empty. -/
theorem deleteAllApplications_spec_witness :
    deleteAllApplicationsInASpecificNamespace idleClient nsT minute =
      none :=
  ((deleteAllApplications_spec idleClient nsT minute).2.2 rfl).mpr
    ⟨0, Nat.zero_le _, rfl⟩

end E2E
